import Mathlib

/-!
Shallow embedding of `src/misc/repeater.h` (namespace `misc`, class `repeater`
and `details::repeater_functor`).

The program is a two-party protocol: an owning thread calling `interrupt()` /
`stop()` and one worker thread running the loop in
`repeater_functor::operator()` (lines 100-125).  The shared state consists of
two atomic booleans (`is_running`, `is_interrupted`) and a condition variable
used only as a wake signal.  We embed the shared flags together with the
worker thread's program position and two observation counters (callback
executions, condition-variable notifications) as a `Config`, the worker's
code as a deterministic step function `workerStep` (the only nondeterminism
in the real program is scheduling, recovered here by interleaving environment
actions between worker steps), and `interrupt()` / `stop()` / the destructor
as functions on `Config`.

Fidelity notes, keyed to the source:
  * `cv_ptr->wait_for(lock, interval, pred)` (lines 108-111) returns the value
    of the predicate `is_interrupted_ptr->load()` at the moment the wait
    exits: `false` exactly when the timeout elapsed with the flag still
    false, `true` exactly when the flag was observed true (early wake or
    timeout race).  Spurious wakeups re-enter the wait and are unobservable.
    We therefore model the wake as a step from `waiting` to
    `postWake c.interrupted`, recording the flag value at the wake instant.
  * The wait duration itself is irrelevant to the flag/decision logic, so
    time is abstracted away: a timeout may occur at any scheduling point.
  * The callback `fn` is opaque; its invocations are counted in `execCount`.
-/

namespace Repeater

/-- Program positions of the worker thread inside
`repeater_functor::operator()` (repeater.h lines 100-125).
`loopTop` is the `while (is_running_ptr->load())` test (line 104);
`waiting` is inside `cv_ptr->wait_for` (lines 108-111);
`postWake w` is just before the `if (is_running_ptr->load())` test
(line 113), with `w` the value `wait_for` returned;
`atReset` is just before `is_interrupted_ptr->store(false)` (line 122),
after the execute decision and any call of `fn` (lines 116-119);
`terminated` is after the loop exits (the thread function returns). -/
inductive WorkerPC where
  | loopTop
  | waiting
  | postWake (w : Bool)
  | atReset
  | terminated
deriving DecidableEq, Repr

/-- The shared state of one `repeater` instance together with the worker
thread's position and two observation counters.
`running` embeds `*is_running_ptr`, `interrupted` embeds
`*is_interrupted_ptr`; `interval` (in abstract ticks) and `eii`
(`execute_if_interrupted`) are the construction parameters stored in the
`repeater_functor` (lines 70-71), never written after construction;
`execCount` counts invocations of the opaque callback `fn`;
`notifies` counts `cv_ptr->notify_one()` calls. -/
structure Config where
  running : Bool
  interrupted : Bool
  interval : Nat
  eii : Bool
  pc : WorkerPC
  execCount : Nat
  notifies : Nat
deriving DecidableEq, Repr

/-- The pair of shared atomic flags, `(is_running, is_interrupted)`. -/
def Config.flags (c : Config) : Bool × Bool := (c.running, c.interrupted)

/-- Constructor `repeater::repeater` (repeater.h lines 128-145): creates the
shared flags with `is_running = true` (line 134) and `is_interrupted = false`
(line 135), a fresh condition variable (line 136), and spawns the worker
thread at the top of its loop (lines 137-143).  The callback `fn` is opaque
and abstracted by the `execCount` counter, so it is taken but not stored. -/
def repeaterInit (interval : Nat) (eii : Bool) (_fn : Unit → Unit) : Config :=
  { running := true, interrupted := false, interval := interval, eii := eii,
    pc := .loopTop, execCount := 0, notifies := 0 }

/-- Operation `repeater::interrupt` (repeater.h lines 164-168):
`is_interrupted_ptr->store(true)` then `cv_ptr->notify_one()`. -/
def interruptOp (c : Config) : Config :=
  { c with interrupted := true, notifies := c.notifies + 1 }

/-- Operation `repeater::stop` (repeater.h lines 170-175):
`is_running_ptr->store(false)`, `is_interrupted_ptr->store(true)`, then
`cv_ptr->notify_one()`. -/
def stopOp (c : Config) : Config :=
  { c with running := false, interrupted := true, notifies := c.notifies + 1 }

/-- One atomic step of the worker thread of
`repeater_functor::operator()` (repeater.h lines 100-125), deterministic
given the current shared flags:
at `loopTop`, the `while` test (line 104) either enters the wait or exits;
at `waiting`, the wait exits carrying the current interrupt-flag value
(the value the `wait_for` predicate returns, lines 108-111);
at `postWake w`, the `if (is_running_ptr->load())` test (line 113) either
performs the execute decision `!is_interrupted || execute_if_interrupted`
(line 116), calling `fn` (line 118) when it holds, or skips the body and
returns to the `while` test;
at `atReset`, `is_interrupted_ptr->store(false)` (line 122) and return to
the `while` test;
`terminated` is absorbing. -/
def workerStep (c : Config) : Config :=
  match c.pc with
  | .loopTop =>
      if c.running then { c with pc := .waiting } else { c with pc := .terminated }
  | .waiting => { c with pc := .postWake c.interrupted }
  | .postWake w =>
      if c.running then
        { c with pc := .atReset,
                 execCount := c.execCount + (if !w || c.eii then 1 else 0) }
      else
        { c with pc := .loopTop }
  | .atReset => { c with pc := .loopTop, interrupted := false }
  | .terminated => c

/-- An interleaving action: one worker step, or one owning-thread call. -/
inductive Act where
  | work
  | interrupt
  | stop
deriving DecidableEq, Repr

/-- Apply one action to a configuration. -/
def applyAct (c : Config) (a : Act) : Config :=
  match a with
  | .work => workerStep c
  | .interrupt => interruptOp c
  | .stop => stopOp c

/-- Run an arbitrary interleaving of worker steps and owning-thread calls. -/
def run (c : Config) (acts : List Act) : Config :=
  acts.foldl applyAct c

/-- One iteration of the worker while-loop body (repeater.h lines 106-123)
as a pure function of the values the body reads from shared state:
`wake_interrupted` is what `wait_for` returns (lines 108-111),
`running_after_wake` is the load at line 113, and `interrupted0` is the
shared interrupt flag when the body resumes after the wake.  The result is
the number of calls of `fn` made by this iteration, paired with the value of
the shared interrupt flag when the iteration ends. -/
def loopBody (eii wake_interrupted running_after_wake interrupted0 : Bool) :
    Nat × Bool :=
  if running_after_wake then
    ((if !wake_interrupted || eii then 1 else 0), false)
  else
    (0, interrupted0)

/-- Fault model for the destructor: whether the worker thread object is
joinable, and whether `t.join()` raises (e.g. `std::system_error`).  The
statements inside `stop()` are atomic stores and `notify_one`, none of which
throw, so the only fault point in the try block is the join. -/
structure ThreadEnv where
  joinable : Bool
  join_raises : Bool
deriving DecidableEq, Repr

/-- The statements inside the destructor's try block (repeater.h lines
151-156): call `stop()`, then `if (t.joinable()) t.join()`.  The result is
the configuration after `stop()` together with whether the join completed;
`Except.error` models an exception escaping the block. -/
def dtorTryBlock (env : ThreadEnv) (c : Config) : Except Unit (Config × Bool) :=
  let c1 := stopOp c
  if env.joinable then
    if env.join_raises then .error ()
    else .ok (c1, true)
  else .ok (c1, false)

/-- Destructor `repeater::~repeater` (repeater.h lines 147-162): the try
block wrapped in `catch (...)` which discards any exception, so the
destructor always returns normally; on the fault path `stop()` has already
executed and the join did not complete. -/
def repeaterDtor (env : ThreadEnv) (c : Config) : Config × Bool :=
  match dtorTryBlock env c with
  | .ok r => r
  | .error _ => (stopOp c, false)

/-! ### Helper lemmas shared by several results -/

/-- No operation ever writes `true` into the running flag: `stop()` stores
`false` (line 172) and nothing else touches it. -/
theorem applyAct_running_false (c : Config) (a : Act) (h : c.running = false) :
    (applyAct c a).running = false := by
  rcases c with ⟨r, i, iv, e, pc, ec, n⟩
  cases a with
  | work => cases pc <;> simp_all [applyAct, workerStep]
  | interrupt => simp_all [applyAct, interruptOp]
  | stop => simp [applyAct, stopOp]

/-- Once the running flag is false it stays false under any interleaving. -/
theorem run_running_false (acts : List Act) :
    ∀ c : Config, c.running = false → (run c acts).running = false := by
  induction acts with
  | nil => intro c h; exact h
  | cons a as ih =>
      intro c h
      have h1 := applyAct_running_false c a h
      simpa [run, List.foldl] using ih (applyAct c a) h1

/-- The terminated position is absorbing for the worker, and owner calls do
not move the worker or invoke the callback: once terminated, any
interleaving leaves the position terminated and the execution count
unchanged. -/
theorem run_terminated (acts : List Act) :
    ∀ c : Config, c.pc = .terminated →
      (run c acts).pc = .terminated ∧ (run c acts).execCount = c.execCount := by
  induction acts with
  | nil => intro c h; exact ⟨h, rfl⟩
  | cons a as ih =>
      intro c h
      have hstep : (applyAct c a).pc = .terminated ∧
          (applyAct c a).execCount = c.execCount := by
        rcases c with ⟨r, i, iv, e, pc, ec, n⟩
        cases a with
        | work => cases pc <;> simp_all [applyAct, workerStep]
        | interrupt => simp_all [applyAct, interruptOp]
        | stop => simp_all [applyAct, stopOp]
      have hrest := ih (applyAct c a) hstep.1
      refine ⟨by simpa [run, List.foldl] using hrest.1, ?_⟩
      have : (run (applyAct c a) as).execCount = (applyAct c a).execCount := hrest.2
      simpa [run, List.foldl, hstep.2] using this

/-- A worker whose running flag is false and whose position is at the loop
test or already terminated never executes the callback again and never
leaves those two positions, under any interleaving. -/
theorem run_dead (acts : List Act) :
    ∀ c : Config, c.running = false →
      (c.pc = .loopTop ∨ c.pc = .terminated) →
      (run c acts).execCount = c.execCount ∧
      (run c acts).running = false ∧
      ((run c acts).pc = .loopTop ∨ (run c acts).pc = .terminated) := by
  induction acts with
  | nil => intro c h hpc; exact ⟨rfl, h, hpc⟩
  | cons a as ih =>
      intro c h hpc
      have hstep : (applyAct c a).execCount = c.execCount ∧
          (applyAct c a).running = false ∧
          ((applyAct c a).pc = .loopTop ∨ (applyAct c a).pc = .terminated) := by
        rcases c with ⟨r, i, iv, e, pc, ec, n⟩
        cases a with
        | work =>
            rcases hpc with hpc | hpc <;>
              simp_all [applyAct, workerStep]
        | interrupt => simp_all [applyAct, interruptOp]
        | stop => simp_all [applyAct, stopOp]
      have hrest := ih (applyAct c a) hstep.2.1 hstep.2.2
      refine ⟨?_, ?_, ?_⟩
      · have : (run (applyAct c a) as).execCount = (applyAct c a).execCount :=
          hrest.1
        simpa [run, List.foldl, hstep.1] using this
      · simpa [run, List.foldl] using hrest.2.1
      · simpa [run, List.foldl] using hrest.2.2

/-! ### C1 -/

/-- C1: In every wake-and-decide cycle in which the worker observes the
running flag still true, the callback is executed if and only if the wait
timed out (`wait_for` returned false, i.e. the interrupt flag was false for
the whole wait) or the wake was due to the interrupt flag becoming true and
`execute_if_interrupted` is set; an interrupt-triggered wake with
`execute_if_interrupted` false skips the callback. -/
theorem c1_exec_iff_timeout_or_policy (c : Config) (w : Bool)
    (hpc : c.pc = .postWake w) (hrun : c.running = true) :
    ((workerStep c).execCount = c.execCount + 1 ↔
      (w = false ∨ (w = true ∧ c.eii = true))) ∧
    ((workerStep c).execCount = c.execCount ↔ (w = true ∧ c.eii = false)) := by
  cases w <;> cases he : c.eii <;> simp [workerStep, hpc, hrun, he]

/-- Concrete configuration for the C1 witness: worker at the post-wake test
after an interrupt wake, running, `execute_if_interrupted = false`.  Fields
are `⟨running, interrupted, interval, eii, pc, execCount, notifies⟩`. -/
def cfgC1 : Config := ⟨true, true, 5, false, .postWake true, 0, 0⟩

/-- C1 witness: a concrete interrupt-triggered wake with
`execute_if_interrupted = false` and the worker running skips the callback. -/
theorem c1_witness :
    ((workerStep cfgC1).execCount = cfgC1.execCount + 1 ↔
      (true = false ∨ (true = true ∧ cfgC1.eii = true))) ∧
    ((workerStep cfgC1).execCount = cfgC1.execCount ↔
      (true = true ∧ cfgC1.eii = false)) :=
  c1_exec_iff_timeout_or_policy cfgC1 true rfl rfl

/-! ### C2 -/

/-- C2: Once the worker observes the running flag false after a wake, it
skips the loop body (no callback, no flag reset), its next loop test
terminates the thread, and under any further interleaving of worker steps,
interrupts and stops, no callback invocation ever occurs again. -/
theorem c2_no_exec_after_stop_observed (c : Config) (w : Bool)
    (hpc : c.pc = .postWake w) (hrun : c.running = false) :
    (workerStep c).execCount = c.execCount ∧
    (workerStep c).pc = .loopTop ∧
    (workerStep (workerStep c)).pc = .terminated ∧
    ∀ acts : List Act, (run (workerStep c) acts).execCount = c.execCount := by
  have h1 : workerStep c = { c with pc := .loopTop } := by
    simp [workerStep, hpc, hrun]
  refine ⟨by rw [h1], by rw [h1], ?_, ?_⟩
  · rw [h1]; simp [workerStep, hrun]
  · intro acts
    have hd := run_dead acts (workerStep c)
      (by rw [h1]; exact hrun) (by rw [h1]; exact Or.inl rfl)
    rw [hd.1, h1]

/-- Concrete configuration for the C2 witness: worker at the post-wake test
with the running flag already cleared by a concurrent `stop()`.  Fields are
`⟨running, interrupted, interval, eii, pc, execCount, notifies⟩`. -/
def cfgC2 : Config := ⟨false, true, 3, true, .postWake true, 7, 2⟩

/-- C2 witness: a concrete post-wake observation of a cleared running flag,
followed by any interleaving that still tries to interrupt and step. -/
theorem c2_witness :
    (workerStep cfgC2).execCount = cfgC2.execCount ∧
    (workerStep cfgC2).pc = .loopTop ∧
    (workerStep (workerStep cfgC2)).pc = .terminated ∧
    ∀ acts : List Act,
      (run (workerStep cfgC2) acts).execCount = cfgC2.execCount :=
  c2_no_exec_after_stop_observed cfgC2 true rfl rfl

/-! ### C3 -/

/-- C3: The running flag is monotone: construction initializes it true, and
no sequence of interrupts, stops and worker steps ever brings it back from
false to true, so it transitions from true to false at most once. -/
theorem c3_running_monotone (interval : Nat) (eii : Bool) (fn : Unit → Unit)
    (c : Config) (acts : List Act) (hfalse : c.running = false) :
    (repeaterInit interval eii fn).running = true ∧
    (run c acts).running = false :=
  ⟨rfl, run_running_false acts c hfalse⟩

/-- Concrete configuration for the C3 witness: a stopped repeater with the
worker still waiting.  Fields are
`⟨running, interrupted, interval, eii, pc, execCount, notifies⟩`. -/
def cfgC3 : Config := ⟨false, true, 10, false, .waiting, 4, 1⟩

/-- C3 witness: a concrete stopped configuration stays stopped across an
interleaving of interrupts and worker steps. -/
theorem c3_witness :
    (repeaterInit 10 false (fun _ => ())).running = true ∧
    (run cfgC3 [.interrupt, .work, .work, .stop, .work]).running = false :=
  c3_running_monotone 10 false (fun _ => ()) cfgC3
    [.interrupt, .work, .work, .stop, .work] rfl

/-! ### C4 -/

/-- C4 counterexample: the claim says the worker clears the interrupt flag
immediately after consuming a wake and before deciding whether to execute;
but at a concrete wake (interrupt flag set, worker running), the worker step
that performs the execute decision and calls the callback leaves the
interrupt flag still true — the clear only happens on the following step. -/
theorem c4_counterexample :
    (workerStep ⟨true, true, 1, true, .postWake true, 0, 0⟩).pc = .atReset ∧
    (workerStep ⟨true, true, 1, true, .postWake true, 0, 0⟩).execCount = 1 ∧
    (workerStep ⟨true, true, 1, true, .postWake true, 0, 0⟩).interrupted = true := by
  decide

/-- C4 (amended): whenever the worker consumes a wake while the running flag
is true, it first performs the execute decision (and any callback call)
without touching the interrupt flag, and then clears the interrupt flag to
false before returning to the loop test, so the next wait starts clean
unless a new interrupt arrives in between. -/
theorem c4_clear_after_decide (c : Config) (w : Bool)
    (hpc : c.pc = .postWake w) (hrun : c.running = true) :
    (workerStep c).pc = .atReset ∧
    (workerStep c).interrupted = c.interrupted ∧
    (workerStep (workerStep c)).interrupted = false ∧
    (workerStep (workerStep c)).pc = .loopTop := by
  have h1 : workerStep c = { c with pc := .atReset, execCount := c.execCount + (if !w || c.eii then 1 else 0) } := by
    simp [workerStep, hpc, hrun]
  refine ⟨by rw [h1], by rw [h1], ?_, ?_⟩ <;> rw [h1] <;> simp [workerStep]

/-- Concrete configuration for the C4 witness: worker at the post-wake test
after consuming an interrupt, running.  Fields are
`⟨running, interrupted, interval, eii, pc, execCount, notifies⟩`. -/
def cfgC4 : Config := ⟨true, true, 2, false, .postWake true, 0, 1⟩

/-- C4 witness: a concrete interrupt-consuming cycle clears the flag on the
step after the execute decision. -/
theorem c4_witness :
    (workerStep cfgC4).pc = .atReset ∧
    (workerStep cfgC4).interrupted = cfgC4.interrupted ∧
    (workerStep (workerStep cfgC4)).interrupted = false ∧
    (workerStep (workerStep cfgC4)).pc = .loopTop :=
  c4_clear_after_decide cfgC4 true rfl rfl

/-! ### C5 -/

/-- C5: `stop()` establishes running = false and interrupted = true, notifies
the wake signal exactly once, and is idempotent on the shared flags: a
second `stop()` (including after the worker has exited — the claim holds for
every configuration, whatever the worker position) leaves the flag state it
produced unchanged. -/
theorem c5_stop_postcondition_idempotent (c : Config) :
    (stopOp c).running = false ∧
    (stopOp c).interrupted = true ∧
    (stopOp c).notifies = c.notifies + 1 ∧
    (stopOp (stopOp c)).flags = (stopOp c).flags := by
  simp [stopOp, Config.flags]

/-! ### C6 -/

/-- C6: `interrupt()` sets the interrupt flag true and notifies the wake
signal exactly once; calling it while the flag is already true (the worker
has not yet consumed it) is a no-op beyond re-notifying: the resulting
configuration differs from the old one only in the notification count. -/
theorem c6_interrupt_sets_flag_idempotent (c : Config) :
    (interruptOp c).interrupted = true ∧
    (interruptOp c).notifies = c.notifies + 1 ∧
    (c.interrupted = true →
      interruptOp c = { c with notifies := c.notifies + 1 }) := by
  refine ⟨rfl, rfl, ?_⟩
  intro h
  rcases c with ⟨r, i, iv, e, pc, ec, n⟩
  simp only [Config.interrupted] at h
  subst h
  rfl

/-- Concrete configuration for the C6 witness: the interrupt flag is already
set and not yet consumed.  Fields are
`⟨running, interrupted, interval, eii, pc, execCount, notifies⟩`. -/
def cfgC6 : Config := ⟨true, true, 4, true, .waiting, 2, 3⟩

/-- C6 witness: a second `interrupt()` on an already-interrupted
configuration changes only the notification count. -/
theorem c6_witness :
    interruptOp cfgC6 = { cfgC6 with notifies := cfgC6.notifies + 1 } :=
  (c6_interrupt_sets_flag_idempotent cfgC6).2.2 rfl

/-! ### C7 -/

/-- C7: The destructor performs `stop()` (whether or not it was already
called — the configuration is arbitrary) and then joins exactly when the
thread is joinable and the join does not raise; and the teardown path
propagates no failure: `repeaterDtor` returns a plain result for every fault
environment, even the one in which the try block provably raises. -/
theorem c7_dtor_stops_joins_swallows (env : ThreadEnv) (c : Config) :
    (repeaterDtor env c).1 = stopOp c ∧
    (repeaterDtor env c).1.running = false ∧
    (repeaterDtor env c).1.interrupted = true ∧
    (repeaterDtor env c).2 = (env.joinable && !env.join_raises) ∧
    dtorTryBlock ⟨true, true⟩ c = .error () := by
  rcases env with ⟨j, rz⟩
  cases j <;> cases rz <;>
    simp [repeaterDtor, dtorTryBlock, stopOp]

/-! ### C8 -/

/-- C8: For every interval, policy flag and callback, construction
initializes the shared state with running = true and interrupted = false,
stores the interval and policy unchanged, and the spawned worker performs no
callback invocation before entering the waiting state: it starts at the loop
test with zero executions and its first step enters the wait. -/
theorem c8_init_state (interval : Nat) (eii : Bool) (fn : Unit → Unit) :
    (repeaterInit interval eii fn).running = true ∧
    (repeaterInit interval eii fn).interrupted = false ∧
    (repeaterInit interval eii fn).interval = interval ∧
    (repeaterInit interval eii fn).eii = eii ∧
    (repeaterInit interval eii fn).execCount = 0 ∧
    (repeaterInit interval eii fn).pc = .loopTop ∧
    (workerStep (repeaterInit interval eii fn)).pc = .waiting ∧
    (workerStep (repeaterInit interval eii fn)).execCount = 0 :=
  ⟨rfl, rfl, rfl, rfl, rfl, rfl, rfl, rfl⟩

/-! ### C9 -/

/-- C9: A single wake-and-decide cycle invokes the callback at most once,
whatever the flags and policy: one pass of the loop body executes the
callback at most once, every single worker step increases the execution
count by at most one, and a full four-step iteration of the worker from the
loop test back to it (or into termination) increases it by at most one. -/
theorem c9_at_most_one_exec_per_iteration (eb wb rb ib : Bool) (c : Config) :
    (loopBody eb wb rb ib).1 ≤ 1 ∧
    (workerStep c).execCount ≤ c.execCount + 1 ∧
    (c.pc = .loopTop →
      (workerStep (workerStep (workerStep (workerStep c)))).execCount ≤
        c.execCount + 1) := by
  refine ⟨?_, ?_, ?_⟩
  · cases rb <;> cases wb <;> cases eb <;> simp [loopBody]
  · rcases c with ⟨r, i, iv, e, pc, ec, n⟩
    cases pc <;> cases r <;> cases i <;> cases e <;>
      simp [workerStep] <;> (try split) <;> omega
  · intro hpc
    rcases c with ⟨r, i, iv, e, pc, ec, n⟩
    simp only [Config.pc] at hpc
    subst hpc
    cases r <;> cases i <;> cases e <;> simp [workerStep]

/-- Concrete configuration for the C9 witness: a running worker at the loop
test with the interrupt flag pending.  Fields are
`⟨running, interrupted, interval, eii, pc, execCount, notifies⟩`. -/
def cfgC9 : Config := ⟨true, true, 8, false, .loopTop, 0, 0⟩

/-- C9 witness: a concrete full iteration from the loop test produces at
most one callback invocation. -/
theorem c9_witness :
    (workerStep (workerStep (workerStep (workerStep cfgC9)))).execCount ≤
      cfgC9.execCount + 1 :=
  (c9_at_most_one_exec_per_iteration true true true true cfgC9).2.2 rfl

/-! ### C10 -/

/-- C10: `interrupt()` modifies only the interrupt flag (and the
notification count): running flag, interval, policy and execution count are
untouched; in particular `interrupt()` after `stop()` leaves the running
flag false, and on a worker that has already terminated no interleaving
after the interrupt can restart it or produce a callback invocation. -/
theorem c10_interrupt_frame (c : Config) (acts : List Act) :
    (interruptOp c).running = c.running ∧
    (interruptOp c).interval = c.interval ∧
    (interruptOp c).eii = c.eii ∧
    (interruptOp c).pc = c.pc ∧
    (interruptOp c).execCount = c.execCount ∧
    (interruptOp c).interrupted = true ∧
    (interruptOp (stopOp c)).running = false ∧
    (c.pc = .terminated →
      (run (interruptOp c) acts).pc = .terminated ∧
      (run (interruptOp c) acts).execCount = c.execCount) := by
  refine ⟨rfl, rfl, rfl, rfl, rfl, rfl, rfl, ?_⟩
  intro h
  have hterm : (interruptOp c).pc = .terminated := h
  exact run_terminated acts (interruptOp c) hterm

/-- Concrete configuration for the C10 witness: a stopped repeater whose
worker has already terminated.  Fields are
`⟨running, interrupted, interval, eii, pc, execCount, notifies⟩`. -/
def cfgC10 : Config := ⟨false, true, 6, true, .terminated, 5, 4⟩

/-- C10 witness: interrupting a terminated worker and then interleaving more
steps neither restarts it nor produces a callback invocation. -/
theorem c10_witness :
    (run (interruptOp cfgC10) [.work, .interrupt, .work]).pc = .terminated ∧
    (run (interruptOp cfgC10) [.work, .interrupt, .work]).execCount =
      cfgC10.execCount :=
  (c10_interrupt_frame cfgC10 [.work, .interrupt, .work]).2.2.2.2.2.2.2 rfl

end Repeater
